import Mathlib

/-!
Verification of the GitMan session controller (`src/frontend/app/page.tsx`).

The component is a single React function component.  Its mutable state is the
collection of `useState` hooks; its operations are the event handlers
(`handleRepoSubmit`, `handleChatSubmit`, `handleMessageSubmit`,
`toggleListening`, `speakMessage`) and the speech-recognition callbacks
(`onresult`, `onerror`, `onend`).  We embed the state as a structure and each
handler as a pure function from a pre-state (plus the resolution of the one
awaited backend call, where the handler awaits one) to a post-state together
with the externally visible effects it emits (backend calls issued, texts
forwarded to speech synthesis, recognizer start/stop calls).
-/

namespace GitMan

/-- `Message.role` of the `Message` interface in page.tsx (lines 13-16). -/
inductive Role where
  | user
  | assistant
deriving DecidableEq

/-- The `Message` interface of page.tsx (lines 13-16): a role and a content string. -/
structure Message where
  role : Role
  content : String
deriving DecidableEq

/-- The `RepoContent` interface of page.tsx (lines 18-21). -/
structure RepoContent where
  content : String
  tree : String
deriving DecidableEq

/-- The component state: one field per `useState` hook of `Home` (page.tsx
lines 24-32).  `recognition` and `synthesis` record whether the corresponding
platform capability was detected by the initialization effect (lines 34-64):
`recognition = true` models a constructed `SpeechRecognition` instance,
`false` models the hook value `null`; similarly for `synthesis`. -/
structure AppState where
  repoUrl : String
  repoContent : Option RepoContent
  isLoading : Bool
  error : Option String
  messages : List Message
  input : String
  isListening : Bool
  recognition : Bool
  synthesis : Bool
deriving DecidableEq

/-- Externally visible effects emitted by one handler invocation:
`ingestCalls` are the urls passed to `ingestRepository`, `askCalls` the
`(message, repoUrl)` pairs passed to `sendChatMessage`, `speakCalls` the texts
forwarded to `speakMessage` (the speech-output adapter), `synthSpeakCalls`
the utterances actually enqueued on `window.speechSynthesis` (empty when the
synthesis capability is absent), and `recognitionStarts`/`recognitionStops`
the calls reaching a constructed recognizer instance. -/
structure Effects where
  ingestCalls : List String
  askCalls : List (String × String)
  speakCalls : List String
  synthSpeakCalls : List String
  recognitionStarts : Nat
  recognitionStops : Nat
deriving DecidableEq

/-- The empty effect record: a handler that touched no collaborator. -/
def noEffects : Effects := ⟨[], [], [], [], 0, 0⟩

/-- JavaScript `String.prototype.trim`: strip leading and trailing whitespace.
Defined structurally over the character list so that it evaluates by kernel
reduction (the library `String.trim` is defined by well-founded recursion over
byte positions and does not). -/
def jsTrim (s : String) : String :=
  ⟨((s.data.dropWhile Char.isWhitespace).reverse.dropWhile Char.isWhitespace).reverse⟩

/-- `speakMessage` (page.tsx lines 75-80): forwards `text` to the platform
synthesis queue when `synthesis` is non-null, otherwise does nothing.  The
invocation itself is recorded in `speakCalls`; the platform enqueue, gated on
the capability, in `synthSpeakCalls`. -/
def speakMessage (s : AppState) (text : String) : Effects :=
  { noEffects with
    speakCalls := [text]
    synthSpeakCalls := if s.synthesis then [text] else [] }

/-- The canned reply fabricated by `handleMessageSubmit` (page.tsx line 94). -/
def simulatedResponse : String :=
  "This is a simulated response. In a real application, this would be the response from your AI backend."

/-- `handleMessageSubmit` (page.tsx lines 82-102), the path invoked by the
speech-recognition `onresult` callback.  Guard: `if (!message.trim()) return`.
Otherwise it appends the user message, clears the input, and schedules a
`setTimeout` that appends the canned `simulatedResponse` as an assistant
message and speaks it.  No backend call is made anywhere in this handler.
We model the handler together with the resolution of its timeout. -/
def handleMessageSubmit (s : AppState) (message : String) : AppState × Effects :=
  if jsTrim message = "" then (s, noEffects)
  else
    let s1 := { s with
      messages := s.messages ++ [Message.mk Role.user message]
      input := "" }
    let s2 := { s1 with
      messages := s1.messages ++ [Message.mk Role.assistant simulatedResponse] }
    (s2, speakMessage s2 simulatedResponse)

/-- The `onresult` callback installed on the recognizer (page.tsx lines 42-46):
`setInput(transcript)` followed by `handleMessageSubmit(transcript)`. -/
def onResult (s : AppState) (transcript : String) : AppState × Effects :=
  handleMessageSubmit { s with input := transcript } transcript

/-- The `onerror` callback (page.tsx lines 48-51): logs and resets the
listening flag. -/
def onSpeechError (s : AppState) : AppState × Effects :=
  ({ s with isListening := false }, noEffects)

/-- The `onend` callback (page.tsx lines 53-55): resets the listening flag. -/
def onEnd (s : AppState) : AppState × Effects :=
  ({ s with isListening := false }, noEffects)

/-- `toggleListening` (page.tsx lines 66-73): optional-chained
`recognition?.stop()` / `recognition?.start()` (a no-op when the hook still
holds `null`), then unconditionally `setIsListening(!isListening)`. -/
def toggleListening (s : AppState) : AppState × Effects :=
  let eff :=
    if s.isListening then
      if s.recognition then { noEffects with recognitionStops := 1 } else noEffects
    else
      if s.recognition then { noEffects with recognitionStarts := 1 } else noEffects
  ({ s with isListening := !s.isListening }, eff)

/-- `handleChatSubmit` (page.tsx lines 104-126), the typed-text submission
handler.  Guard: `if (!input.trim() || !repoUrl) return`.  Otherwise it
appends the user message (with the captured `input`), clears the input, sets
`isLoading`, awaits `sendChatMessage(input, repoUrl)`; on success appends the
assistant reply and forwards it to `speakMessage`; on failure sets `error`;
finally clears `isLoading`.  The resolution of the awaited call is the
`askResult` parameter (the error case carries the normalized message). -/
def handleChatSubmit (s : AppState) (askResult : Except String String) :
    AppState × Effects :=
  if jsTrim s.input = "" ∨ s.repoUrl = "" then (s, noEffects)
  else
    let sent := s.input
    let s1 := { s with
      messages := s.messages ++ [Message.mk Role.user sent]
      input := ""
      isLoading := true }
    match askResult with
    | .ok reply =>
        let s2 := { s1 with messages := s1.messages ++ [Message.mk Role.assistant reply] }
        ({ s2 with isLoading := false },
         { speakMessage s2 reply with askCalls := [(sent, s.repoUrl)] })
    | .error msg =>
        ({ s1 with error := some msg, isLoading := false },
         { noEffects with askCalls := [(sent, s.repoUrl)] })

/-- The welcome message seeded after a successful ingestion
(page.tsx lines 140-143). -/
def welcomeMessage (url : String) : String :=
  "Repository ingested successfully! I\x27m ready to chat about the repository: "
    ++ url ++ ". What would you like to know?"

/-- `handleRepoSubmit` (page.tsx lines 128-150): sets `isLoading`, clears
`error`, awaits `ingestRepository(repoUrl)`; on success stores the repo
content and REPLACES the message list with the single welcome message; on
failure sets `error` and clears `repoContent`; finally clears `isLoading`.
The resolution of the awaited call is the `result` parameter. -/
def handleRepoSubmit (s : AppState) (result : Except String RepoContent) :
    AppState × Effects :=
  let s0 := { s with isLoading := true, error := none }
  match result with
  | .ok r =>
      ({ s0 with
          repoContent := some r
          messages := [Message.mk Role.assistant (welcomeMessage s.repoUrl)]
          isLoading := false },
       { noEffects with ingestCalls := [s.repoUrl] })
  | .error msg =>
      ({ s0 with error := some msg, repoContent := none, isLoading := false },
       { noEffects with ingestCalls := [s.repoUrl] })

/-- The ingestion form submission (page.tsx lines 160-172).  The URL input is
declared `required` and bound to `repoUrl` (lines 161-168), so browser
constraint validation blocks the submit event — and hence the invocation of
`handleRepoSubmit` — while the bound value is empty, surfacing an inline
validation message instead. -/
def repoFormSubmit (s : AppState) (result : Except String RepoContent) :
    AppState × Effects :=
  if s.repoUrl = "" then (s, noEffects) else handleRepoSubmit s result

/-- The session is chat-capable ("Ready" in the state machine of the spec) when a
repository has been ingested (`repoContent` non-null, which renders the chat
form) and no request is in flight (`isLoading` false). -/
def readyB (s : AppState) : Bool :=
  s.repoContent.isSome && !s.isLoading

/-- The controller operations, each paired with the resolution of the awaited
backend call where the operation awaits one. -/
inductive Op where
  | repoSubmit (result : Except String RepoContent)
  | chatSubmit (askResult : Except String String)
  | voiceResult (transcript : String)
  | voiceError
  | voiceEnd
  | toggle

/-- One controller operation applied to a component state. -/
def step (s : AppState) (op : Op) : AppState × Effects :=
  match op with
  | .repoSubmit r => repoFormSubmit s r
  | .chatSubmit r => handleChatSubmit s r
  | .voiceResult t => onResult s t
  | .voiceError => onSpeechError s
  | .voiceEnd => onEnd s
  | .toggle => toggleListening s

/-- Whether an operation is an ingestion that resolved successfully. -/
def Op.isIngestSuccess : Op → Bool
  | .repoSubmit (.ok _) => true
  | _ => false

/-! ## Concrete example states used by counterexamples and witnesses -/

/-- A Ready session directly after a successful ingestion, with the transcript
text `"hello"` sitting in the input field and listening active. -/
def exReady : AppState :=
  { repoUrl := "https://github.com/a/b"
    repoContent := some ⟨"content", "tree"⟩
    isLoading := false
    error := none
    messages := [Message.mk Role.assistant (welcomeMessage "https://github.com/a/b")]
    input := "hello"
    isListening := true
    recognition := true
    synthesis := true }

/-- A session with an ask in flight (`isLoading = true`): the spec state
`ChatPending`, reachable while a voice capture is still listening because the
mic button is not disabled during loading (page.tsx lines 219-229). -/
def exChatPending : AppState :=
  { repoUrl := "https://github.com/a/b"
    repoContent := some ⟨"content", "tree"⟩
    isLoading := true
    error := none
    messages := [Message.mk Role.assistant (welcomeMessage "https://github.com/a/b"),
                 Message.mk Role.user "what does this do?"]
    input := ""
    isListening := true
    recognition := true
    synthesis := true }

/-- A Ready session carrying a stale error message left by a previous failed
ask, with a new question typed into the input field. -/
def exStaleError : AppState :=
  { repoUrl := "https://github.com/a/b"
    repoContent := some ⟨"content", "tree"⟩
    isLoading := false
    error := some "Failed to send message"
    messages := [Message.mk Role.assistant (welcomeMessage "https://github.com/a/b"),
                 Message.mk Role.user "first question"]
    input := "second question"
    isListening := false
    recognition := true
    synthesis := true }

/-- A Ready session whose log has accumulated three turns, with a new url
typed into the repository field (about to re-ingest). -/
def exRich : AppState :=
  { repoUrl := "https://github.com/c/d"
    repoContent := some ⟨"content", "tree"⟩
    isLoading := false
    error := none
    messages := [Message.mk Role.assistant (welcomeMessage "https://github.com/a/b"),
                 Message.mk Role.user "what does this do?",
                 Message.mk Role.assistant "It is a web service."]
    input := ""
    isListening := false
    recognition := true
    synthesis := true }

/-- A Ready session on a platform without speech recognition or synthesis:
the `recognition` and `synthesis` hooks still hold `null`. -/
def exNoRecog : AppState :=
  { repoUrl := "https://github.com/a/b"
    repoContent := some ⟨"content", "tree"⟩
    isLoading := false
    error := none
    messages := [Message.mk Role.assistant (welcomeMessage "https://github.com/a/b")]
    input := ""
    isListening := false
    recognition := false
    synthesis := false }

/-- The initial state of the component: every hook at its initializer
(page.tsx lines 24-32), on a platform with both speech capabilities. -/
def exInitial : AppState :=
  { repoUrl := ""
    repoContent := none
    isLoading := false
    error := none
    messages := []
    input := ""
    isListening := false
    recognition := true
    synthesis := true }

/-! ## Claims -/

/-- Claim C1: on a Ready session, the voice path (`onresult` →
`handleMessageSubmit`) performs NO backend ask call and appends the canned
`simulatedResponse` as the assistant turn, whereas the typed path
(`handleChatSubmit`) for the same text performs the `sendChatMessage`
round-trip and appends the backend reply: the two submission paths are not
the same function of the submitted text. -/
theorem voice_path_diverges_from_typed_path :
    readyB exReady = true ∧
    (onResult exReady "hello").2.askCalls = [] ∧
    (onResult exReady "hello").1.messages
      = exReady.messages ++ [Message.mk Role.user "hello",
          Message.mk Role.assistant simulatedResponse] ∧
    (handleChatSubmit exReady (Except.ok "It is a web service.")).2.askCalls
      = [("hello", "https://github.com/a/b")] ∧
    (handleChatSubmit exReady (Except.ok "It is a web service.")).1.messages
      = exReady.messages ++ [Message.mk Role.user "hello",
          Message.mk Role.assistant "It is a web service."] := by
  exact ⟨rfl, by decide, by decide, by decide, by decide⟩

/-- Claim C2: a voice transcript arriving while the session is not Ready
(here: an ask already in flight, `isLoading = true`) still mutates the
conversation log, because `handleMessageSubmit` checks only that the
transcript is non-blank and never consults the session status. -/
theorem voice_submit_while_not_ready_mutates :
    readyB exChatPending = false ∧
    (onResult exChatPending "hi").1.messages ≠ exChatPending.messages ∧
    (onResult exChatPending "hi").1.messages.length
      = exChatPending.messages.length + 2 := by
  exact ⟨rfl, by decide, by decide⟩

/-- Claim C3: every successful ingest leaves the session Ready with the
conversation log equal to exactly one assistant welcome message that contains
the submitted url, and forwards nothing to speech output. -/
theorem ingest_success_seeds_welcome (s : AppState) (r : RepoContent) :
    readyB (handleRepoSubmit s (Except.ok r)).1 = true ∧
    (handleRepoSubmit s (Except.ok r)).1.messages
      = [Message.mk Role.assistant (welcomeMessage s.repoUrl)] ∧
    (∃ a b, welcomeMessage s.repoUrl = a ++ s.repoUrl ++ b) ∧
    (handleRepoSubmit s (Except.ok r)).2.speakCalls = [] ∧
    (handleRepoSubmit s (Except.ok r)).2.synthSpeakCalls = [] := by
  exact ⟨rfl, rfl, ⟨_, _, rfl⟩, rfl, rfl⟩

/-- Claim C4: every successful ask appends exactly the user turn (with the
submitted text) followed by the assistant turn (with the backend reply), in
that order, issues exactly one backend call, and forwards the reply to the
speech-output adapter exactly once. -/
theorem ask_success_appends_two (s : AppState) (reply : String)
    (hin : jsTrim s.input ≠ "") (hurl : s.repoUrl ≠ "") :
    (handleChatSubmit s (Except.ok reply)).1.messages
      = s.messages ++ [Message.mk Role.user s.input, Message.mk Role.assistant reply] ∧
    (handleChatSubmit s (Except.ok reply)).2.speakCalls = [reply] ∧
    (handleChatSubmit s (Except.ok reply)).2.askCalls = [(s.input, s.repoUrl)] := by
  unfold handleChatSubmit
  rw [if_neg (not_or.mpr ⟨hin, hurl⟩)]
  exact ⟨by simp, rfl, rfl⟩

/-- Witness for C4 at a concrete Ready state. -/
theorem ask_success_appends_two_witness :
    jsTrim exReady.input ≠ "" ∧ exReady.repoUrl ≠ "" ∧
    ((handleChatSubmit exReady (Except.ok "ok")).1.messages
        = exReady.messages ++ [Message.mk Role.user exReady.input,
            Message.mk Role.assistant "ok"] ∧
      (handleChatSubmit exReady (Except.ok "ok")).2.speakCalls = ["ok"] ∧
      (handleChatSubmit exReady (Except.ok "ok")).2.askCalls
        = [(exReady.input, exReady.repoUrl)]) :=
  ⟨by decide, by decide, ask_success_appends_two exReady "ok" (by decide) (by decide)⟩

/-- Claim C5: every failing ask appends exactly the user turn (no assistant
turn), sets the error message, leaves the session Ready again (repo content
intact, loading flag cleared), and forwards nothing to speech output. -/
theorem ask_failure_appends_user_only (s : AppState) (msg : String)
    (hin : jsTrim s.input ≠ "") (hurl : s.repoUrl ≠ "")
    (hrc : s.repoContent.isSome = true) :
    (handleChatSubmit s (Except.error msg)).1.messages
      = s.messages ++ [Message.mk Role.user s.input] ∧
    (handleChatSubmit s (Except.error msg)).1.error = some msg ∧
    (handleChatSubmit s (Except.error msg)).1.repoContent = s.repoContent ∧
    readyB (handleChatSubmit s (Except.error msg)).1 = true ∧
    (handleChatSubmit s (Except.error msg)).2.speakCalls = [] := by
  unfold handleChatSubmit
  rw [if_neg (not_or.mpr ⟨hin, hurl⟩)]
  refine ⟨rfl, rfl, rfl, ?_, rfl⟩
  simp [readyB, hrc]

/-- Witness for C5 at a concrete Ready state. -/
theorem ask_failure_appends_user_only_witness :
    jsTrim exReady.input ≠ "" ∧ exReady.repoUrl ≠ "" ∧
    exReady.repoContent.isSome = true ∧
    ((handleChatSubmit exReady (Except.error "boom")).1.messages
        = exReady.messages ++ [Message.mk Role.user exReady.input] ∧
      (handleChatSubmit exReady (Except.error "boom")).1.error = some "boom" ∧
      (handleChatSubmit exReady (Except.error "boom")).1.repoContent
        = exReady.repoContent ∧
      readyB (handleChatSubmit exReady (Except.error "boom")).1 = true ∧
      (handleChatSubmit exReady (Except.error "boom")).2.speakCalls = []) :=
  ⟨by decide, by decide, rfl,
    ask_failure_appends_user_only exReady "boom" (by decide) (by decide) rfl⟩

/-- Counterexample to claim C6: a successful ask resolving while the session
holds a non-null error message leaves the stale message in place — the
transition back to Ready does NOT clear it to null (`handleChatSubmit` never
calls `setError(null)`). -/
theorem ask_success_error_not_cleared :
    exStaleError.error = some "Failed to send message" ∧
    (handleChatSubmit exStaleError (Except.ok "All good.")).1.error
      = some "Failed to send message" ∧
    (handleChatSubmit exStaleError (Except.ok "All good.")).1.error ≠ none := by
  exact ⟨rfl, by decide, by decide⟩

/-- Claim C6 amended: every successful ask leaves the error message exactly
as it was before the submission; in particular a stale error from a previous
failure is not cleared. -/
theorem ask_success_preserves_error (s : AppState) (reply : String)
    (hin : jsTrim s.input ≠ "") (hurl : s.repoUrl ≠ "") :
    (handleChatSubmit s (Except.ok reply)).1.error = s.error := by
  unfold handleChatSubmit
  rw [if_neg (not_or.mpr ⟨hin, hurl⟩)]

/-- Witness for the amended C6 at a concrete state with a stale error. -/
theorem ask_success_preserves_error_witness :
    jsTrim exStaleError.input ≠ "" ∧ exStaleError.repoUrl ≠ "" ∧
    (handleChatSubmit exStaleError (Except.ok "All good.")).1.error
      = exStaleError.error :=
  ⟨by decide, by decide,
    ask_success_preserves_error exStaleError "All good." (by decide) (by decide)⟩

/-- Claim C7: an ingest attempt with an empty url is blocked locally by the
required-field constraint on the url input before `handleRepoSubmit` can run:
no backend call is issued and the state — in particular `isLoading` and the
status it encodes — is exactly unchanged. -/
theorem empty_url_ingest_rejected (s : AppState)
    (result : Except String RepoContent) (h : s.repoUrl = "") :
    repoFormSubmit s result = (s, noEffects) := by
  unfold repoFormSubmit
  rw [if_pos h]

/-- Witness for C7 at the initial state of the component. -/
theorem empty_url_ingest_rejected_witness :
    exInitial.repoUrl = "" ∧
    repoFormSubmit exInitial (Except.error "network") = (exInitial, noEffects) :=
  ⟨rfl, empty_url_ingest_rejected exInitial (Except.error "network") rfl⟩

/-- Counterexample to claim C8: a successful re-ingestion REPLACES the
conversation log with the single new welcome message, so a three-turn log
shrinks to one turn and is not preserved as a prefix. -/
theorem log_shrinks_on_reingest :
    (step exRich (Op.repoSubmit (Except.ok ⟨"c2", "t2"⟩))).1.messages.length = 1 ∧
    exRich.messages.length = 3 ∧
    ¬ exRich.messages
        <+: (step exRich (Op.repoSubmit (Except.ok ⟨"c2", "t2"⟩))).1.messages := by
  refine ⟨by decide, by decide, fun h => absurd h.length_le (by decide)⟩

/-- Claim C8 amended: every controller operation other than a successful
ingestion preserves the conversation log as a prefix of the new log (the log
only ever grows at its end); a successful ingestion instead resets the log to
the single welcome message. -/
theorem log_prefix_unless_ingest_success (s : AppState) (op : Op)
    (h : op.isIngestSuccess = false) :
    s.messages <+: (step s op).1.messages := by
  cases op with
  | repoSubmit r =>
      cases r with
      | ok r => simp [Op.isIngestSuccess] at h
      | error msg =>
          show s.messages <+: (repoFormSubmit s (Except.error msg)).1.messages
          unfold repoFormSubmit handleRepoSubmit
          split
          · exact List.prefix_rfl
          · exact List.prefix_rfl
  | chatSubmit r =>
      show s.messages <+: (handleChatSubmit s r).1.messages
      unfold handleChatSubmit
      split
      · exact List.prefix_rfl
      · cases r with
        | ok reply =>
            refine ⟨[Message.mk Role.user s.input, Message.mk Role.assistant reply], ?_⟩
            simp
        | error msg => exact ⟨[Message.mk Role.user s.input], rfl⟩
  | voiceResult t =>
      show s.messages <+: (onResult s t).1.messages
      unfold onResult handleMessageSubmit
      split
      · exact List.prefix_rfl
      · refine ⟨[Message.mk Role.user t, Message.mk Role.assistant simulatedResponse], ?_⟩
        simp
  | voiceError => exact List.prefix_rfl
  | voiceEnd => exact List.prefix_rfl
  | toggle => exact List.prefix_rfl

/-- Witness for the amended C8: a voice submission on a rich log keeps the
old log as a prefix. -/
theorem log_prefix_unless_ingest_success_witness :
    (Op.voiceResult "hi").isIngestSuccess = false ∧
    exRich.messages <+: (step exRich (Op.voiceResult "hi")).1.messages :=
  ⟨rfl, log_prefix_unless_ingest_success exRich (Op.voiceResult "hi") rfl⟩

/-- Counterexample to claim C9: with the recognition capability unavailable
the voice-capture toggle still flips the listening flag from Idle to
Listening — the listening state does not remain Idle. -/
theorem toggle_without_recognition_flips :
    exNoRecog.recognition = false ∧ exNoRecog.isListening = false ∧
    (toggleListening exNoRecog).1.isListening = true := by
  exact ⟨rfl, rfl, rfl⟩

/-- Claim C9 amended: with the recognition capability unavailable the toggle
is inert towards the recognizer — no start or stop call is issued (so no
capture can begin and no transcript can ever be emitted) — and the only state
change is that the `isListening` flag flips. -/
theorem toggle_without_recognition_inert (s : AppState) (h : s.recognition = false) :
    toggleListening s = ({ s with isListening := !s.isListening }, noEffects) := by
  unfold toggleListening
  rw [h]
  simp

/-- Witness for the amended C9 at a concrete capability-free state. -/
theorem toggle_without_recognition_inert_witness :
    exNoRecog.recognition = false ∧
    toggleListening exNoRecog
      = ({ exNoRecog with isListening := !exNoRecog.isListening }, noEffects) :=
  ⟨rfl, toggle_without_recognition_inert exNoRecog rfl⟩

/-- Claim C10: a failing ingest sets the error message, nulls the repo
content, and changes nothing else — the message list is exactly preserved
(turns accumulated from a previously successful ingestion survive a failed
re-ingestion).  The hypothesis `isLoading = false` is faithful: the form
controls are disabled while a request is in flight (page.tsx lines 167-169),
so the handler only runs from non-loading states. -/
theorem ingest_failure_frame (s : AppState) (msg : String)
    (h : s.isLoading = false) :
    (handleRepoSubmit s (Except.error msg)).1
      = { s with error := some msg, repoContent := none } ∧
    (handleRepoSubmit s (Except.error msg)).1.messages = s.messages ∧
    (handleRepoSubmit s (Except.error msg)).2
      = { noEffects with ingestCalls := [s.repoUrl] } := by
  refine ⟨?_, rfl, rfl⟩
  cases s with
  | mk u rc il e m i lis rec syn =>
      cases h
      rfl

/-- Witness for C10: a failed re-ingestion from a rich Ready state keeps all
three accumulated turns. -/
theorem ingest_failure_frame_witness :
    exRich.isLoading = false ∧
    ((handleRepoSubmit exRich (Except.error "Backend unreachable")).1
        = { exRich with error := some "Backend unreachable", repoContent := none } ∧
      (handleRepoSubmit exRich (Except.error "Backend unreachable")).1.messages
        = exRich.messages ∧
      (handleRepoSubmit exRich (Except.error "Backend unreachable")).2
        = { noEffects with ingestCalls := [exRich.repoUrl] }) :=
  ⟨rfl, ingest_failure_frame exRich "Backend unreachable" rfl⟩

end GitMan
